import Mathlib

/-!
Shallow embedding of `rusty-git-prompt` (src/main.rs), a shell-prompt helper
that prints a bracketed git status summary.  The program is a thin formatting
layer over the git2 library: we model the library surface (repository handle,
HEAD reference, configuration, statuses) as record fields holding the results
the library would return, and translate each Rust function into a Lean
function over that model.  `usize` counters become `Nat`, `Result<T, Error>`
becomes `Except GitError T`, `Option<&str>` becomes `Option String`, and the
printing side effects become an accumulated output string.
-/

namespace RustyGitPrompt

/-- Error codes distinguishing git2's "not found" discovery result from other
failures.  The Rust code only ever matches `Ok`/`Err`, never the code. -/
inductive ErrorCode where
  | notFound
  | generic
  deriving DecidableEq, Repr

/-- Models `git2::Error`: an error code plus the message that `Display` prints. -/
structure GitError where
  code : ErrorCode
  message : String
  deriving DecidableEq, Repr

/-- Models `git2::Error::from_str`: a generic error carrying the given message. -/
def GitError.from_str (s : String) : GitError :=
  { code := ErrorCode.generic, message := s }

/-- Models `git2::Oid` as its hexadecimal display string. -/
abbrev Oid := String

/-- Models `Oid::zero()`: the all-zero object identifier. -/
def Oid.zero : Oid := "0000000000000000000000000000000000000000"

/-- Mirrors `struct FileState` (src/main.rs lines 8-15): six change counters. -/
structure FileState where
  wt_add : Nat
  wt_edit : Nat
  wt_remove : Nat
  index_add : Nat
  index_edit : Nat
  index_remove : Nat
  deriving DecidableEq, Repr

/-- Mirrors `FileState::as_string` (src/main.rs lines 27-39): start from the
empty string and append a term for each non-zero counter in order. -/
def FileState.as_string (add edit remove : Nat) : String :=
  let result := ""
  let result := if add > 0 then result ++ " +" ++ Nat.repr add else result
  let result := if edit > 0 then result ++ " ~" ++ Nat.repr edit else result
  let result := if remove > 0 then result ++ " -" ++ Nat.repr remove else result
  result

/-- Mirrors `FileState::wt_as_string` (src/main.rs lines 19-21). -/
def FileState.wt_as_string (self : FileState) : String :=
  FileState.as_string self.wt_add self.wt_edit self.wt_remove

/-- Mirrors `FileState::index_as_string` (src/main.rs lines 23-25). -/
def FileState.index_as_string (self : FileState) : String :=
  FileState.as_string self.index_add self.index_edit self.index_remove

/-- Mirrors `struct BranchState` (src/main.rs lines 42-48). -/
structure BranchState where
  name : String
  ahead : Nat
  behind : Nat
  is_detached : Bool
  sha : Oid
  deriving DecidableEq, Repr

/-- Mirrors `BranchState::as_string` (src/main.rs lines 51-63): branch name,
then `(<sha>)` when detached, then the behind arrow, then the ahead arrow. -/
def BranchState.as_string (self : BranchState) : String :=
  let result := self.name
  let result := if self.is_detached then result ++ "(" ++ self.sha ++ ")" else result
  let result := if self.behind > 0 then result ++ " ↓" ++ Nat.repr self.behind else result
  let result := if self.ahead > 0 then result ++ " ↑" ++ Nat.repr self.ahead else result
  result

/-- Models one entry of `git2::Statuses`: the per-file status flags the loop in
`get_file_state` inspects.  Flags are independent booleans, not an enum. -/
structure Status where
  is_wt_new : Bool
  is_wt_modified : Bool
  is_wt_deleted : Bool
  is_wt_renamed : Bool
  is_index_new : Bool
  is_index_modified : Bool
  is_index_deleted : Bool
  is_index_renamed : Bool
  deriving DecidableEq, Repr

/-- Loop body of `get_file_state` (src/main.rs lines 203-230): each set flag
independently increments its counter(s); a rename bumps both add and remove. -/
def count_status (fs : FileState) (status : Status) : FileState :=
  let fs := if status.is_wt_new then { fs with wt_add := fs.wt_add + 1 } else fs
  let fs := if status.is_wt_modified then { fs with wt_edit := fs.wt_edit + 1 } else fs
  let fs := if status.is_wt_deleted then { fs with wt_remove := fs.wt_remove + 1 } else fs
  let fs := if status.is_wt_renamed then
    { fs with wt_add := fs.wt_add + 1, wt_remove := fs.wt_remove + 1 } else fs
  let fs := if status.is_index_new then { fs with index_add := fs.index_add + 1 } else fs
  let fs := if status.is_index_modified then { fs with index_edit := fs.index_edit + 1 } else fs
  let fs := if status.is_index_deleted then { fs with index_remove := fs.index_remove + 1 } else fs
  let fs := if status.is_index_renamed then
    { fs with index_add := fs.index_add + 1, index_remove := fs.index_remove + 1 } else fs
  fs

/-- Models a `git2::Reference` as the Rust code reads it: `name()`,
`shorthand()` (each `None` on invalid utf-8), `target()` (direct target id,
`None` for symbolic references), and the result of `peel_to_commit()?.id()`. -/
structure GitRef where
  name : Option String
  shorthand : Option String
  target : Option Oid
  peel_to_commit : Except GitError Oid

/-- Models the global `git2::Config` opened by `Config::open_global`:
`get_str` returns the value for a key, or `none` when the lookup errors. -/
structure GlobalConfig where
  get_str : String → Option String

/-- Models a `git2::Config` snapshot: key lookup plus `open_global`. -/
structure GitConfig where
  get_str : String → Option String
  open_global : Except GitError GlobalConfig

/-- Models the live `git2::Config` returned by `Repository::config`, from
which the Rust code takes a `snapshot()`. -/
structure LiveConfig where
  snapshot : Except GitError GitConfig

/-- Models the `git2::Repository` handle: each field holds what the
corresponding library call would return for this repository.
`upstream_config` backs `branch_upstream_name`: for a local branch full name
it gives the configured upstream name buffer (`none` when no upstream is
configured; the inner option is `Buf::as_str` utf-8 validity). -/
structure Repo where
  is_empty : Except GitError Bool
  head : Except GitError GitRef
  head_detached : Except GitError Bool
  upstream_config : String → Option (Option String)
  find_reference : String → Except GitError GitRef
  graph_ahead_behind : Oid → Oid → Except GitError (Nat × Nat)
  config : Except GitError LiveConfig
  statuses : Except GitError (List Status)

/-- Models `git2::Repository::branch_upstream_name`: the library rejects any
refname that is not a local branch (does not start with `refs/heads/`), and
otherwise returns the configured upstream name or an error when none is
configured.  A detached HEAD's reference name is `HEAD`, so the lookup always
fails for it. -/
def branch_upstream_name (repo : Repo) (refname : String) : Except GitError (Option String) :=
  if List.isPrefixOf ("refs/heads/".data) refname.data then
    match repo.upstream_config refname with
    | some buf => Except.ok buf
    | none => Except.error (GitError.from_str "config value 'branch.*.merge' was not found")
  else
    Except.error (GitError.from_str "not a local branch reference")

/-- Mirrors `add_context_to_error` (src/main.rs lines 239-241): wrap the
underlying error message behind a context string. -/
def add_context_to_error (e : GitError) (context : String) : Except GitError α :=
  Except.error (GitError.from_str (context ++ ". Error: " ++ e.message))

/-- Mirrors `get_empty_repo_branch_info` (src/main.rs lines 163-192): resolve
the default branch name through the config fallback chain and return a
BranchState with zero ahead/behind, not detached, and a zero sha. -/
def get_empty_repo_branch_info (repo : Repo) : Except GitError BranchState :=
  match repo.config with
  | Except.error e => add_context_to_error e "Unable to get repo config"
  | Except.ok live_config =>
    match live_config.snapshot with
    | Except.error e => add_context_to_error e "Unable to create config snapshot"
    | Except.ok config =>
      -- DEFAULT_BRANCH_KEY = "init.defaultBranch" in the source
      match config.get_str "init.defaultBranch" with
      | some name =>
        Except.ok { name := name, ahead := 0, behind := 0, is_detached := false, sha := Oid.zero }
      | none =>
        match config.open_global with
        | Except.error e => add_context_to_error e "Unable to get global config"
        | Except.ok global =>
          match global.get_str "init.defaultBranch" with
          | some name =>
            Except.ok { name := name, ahead := 0, behind := 0, is_detached := false,
                        sha := Oid.zero }
          | none =>
            Except.ok { name := "master", ahead := 0, behind := 0, is_detached := false,
                        sha := Oid.zero }

/-- Mirrors `get_branch_info` (src/main.rs lines 108-161). -/
def get_branch_info (repo : Repo) : Except GitError BranchState :=
  match repo.is_empty with
  | Except.error e => Except.error e
  | Except.ok true => get_empty_repo_branch_info repo
  | Except.ok false =>
    match repo.head with
    | Except.error e => add_context_to_error e "Unable to get HEAD"
    | Except.ok head =>
      match head.name with
      | none => Except.error (GitError.from_str "Unable to get local branch full name")
      | some head_fullname =>
        match head.shorthand with
        | none => Except.error (GitError.from_str "Unable to get local branch short name")
        | some head_shortname =>
          match branch_upstream_name repo head_fullname with
          | Except.error _ =>
            -- No remote branch
            match repo.head_detached with
            | Except.error e => Except.error e
            | Except.ok det =>
              match head.peel_to_commit with
              | Except.error e => Except.error e
              | Except.ok sha =>
                Except.ok { name := head_shortname, ahead := 0, behind := 0,
                            is_detached := det, sha := sha }
          | Except.ok remote_name_buf =>
            match remote_name_buf with
            | none => Except.error (GitError.from_str "Unable to get remote branch name")
            | some remote_name =>
              match repo.find_reference remote_name with
              | Except.error e => Except.error e
              | Except.ok remote_reference =>
                match remote_reference.target with
                | none => Except.error (GitError.from_str "Unable to get remote branch id")
                | some upstream_oid =>
                  match head.target with
                  | none => Except.error (GitError.from_str "Unable to get local branch id")
                  | some local_oid =>
                    match repo.graph_ahead_behind local_oid upstream_oid with
                    | Except.error e => Except.error e
                    | Except.ok ahead_behind =>
                      match repo.head_detached with
                      | Except.error e => Except.error e
                      | Except.ok det =>
                        match head.peel_to_commit with
                        | Except.error e => Except.error e
                        | Except.ok sha =>
                          Except.ok { name := head_shortname, ahead := ahead_behind.1,
                                      behind := ahead_behind.2, is_detached := det, sha := sha }

/-- Mirrors `get_file_state` (src/main.rs lines 194-233): fold the loop body
over the status list starting from all-zero counters. -/
def get_file_state (repo : Repo) : Except GitError FileState :=
  match repo.statuses with
  | Except.error e => Except.error e
  | Except.ok statuses =>
    Except.ok (statuses.foldl count_status
      { wt_add := 0, wt_edit := 0, wt_remove := 0,
        index_add := 0, index_edit := 0, index_remove := 0 })

/-- Mirrors `get_repo_info` (src/main.rs lines 81-106).  The first component
is the text printed to standard output (in print order; on an error the
already-printed prefix), the second the propagated error if any. -/
def get_repo_info (repo : Repo) : String × Option GitError :=
  match get_branch_info repo with
  | Except.error e => ("[", some e)
  | Except.ok branch_state =>
    match get_file_state repo with
    | Except.error e => ("[" ++ branch_state.as_string, some e)
    | Except.ok file_state =>
      let index_text := file_state.index_as_string
      let wt_text := file_state.wt_as_string
      let out := "[" ++ branch_state.as_string
      let out := if !index_text.isEmpty then
          out ++ index_text ++ (if !wt_text.isEmpty then " |" else "")
        else out
      let out := if !wt_text.isEmpty then out ++ wt_text else out
      (out ++ "]", none)

/-- Models the process environment `main` reads: the current working
directory (or the io error message) and repository discovery from it. -/
structure Env where
  current_dir : Except String String
  discover : String → Except GitError Repo

/-- Mirrors `main` (src/main.rs lines 66-79): first component is everything
printed to standard output, second the error `main` returns, if any (the Rust
runtime then prints it to standard error and exits non-zero). -/
def main (env : Env) : String × Option GitError :=
  match env.current_dir with
  | Except.error error =>
    ("", some (GitError.from_str ("Unable to get current dir. Error: " ++ error)))
  | Except.ok current_dir =>
    match env.discover current_dir with
    | Except.ok repo => get_repo_info repo
    | Except.error _ => ("", none) -- Not a git dir

/-- Process exit code determined by `main`'s result: 0 on `Ok`, non-zero when
the Rust runtime reports the returned error. -/
def exit_code (result : String × Option GitError) : Nat :=
  match result.2 with
  | none => 0
  | some _ => 1

/-- Text `main` leaves on standard output. -/
def std_output (result : String × Option GitError) : String := result.1

/-! Helper lemmas about string concatenation, shared by the claim proofs. -/

theorem str_append_assoc (a b c : String) : a ++ b ++ c = a ++ (b ++ c) := by
  apply String.ext
  simp [String.data_append]

theorem str_empty_append (s : String) : "" ++ s = s := by
  apply String.ext
  simp [String.data_append]

theorem append_ite (c : Prop) [Decidable c] (x y : String) :
    (if c then x ++ y else x) = x ++ (if c then y else "") := by
  by_cases h : c <;> simp [h, String.append_empty]

theorem not_isEmpty_eq (s : String) : ((!s.isEmpty) = true) ↔ s ≠ "" := by
  simp [Bool.eq_false_iff, String.isEmpty_iff]

/-- The claim C2 formula: a string holding exactly the non-zero terms, in the
fixed order add, edit, remove, each rendered with its symbol. -/
def delta_terms (add edit remove : Nat) : String :=
  (if add > 0 then " +" ++ Nat.repr add else "")
    ++ (if edit > 0 then " ~" ++ Nat.repr edit else "")
    ++ (if remove > 0 then " -" ++ Nat.repr remove else "")

/-- C2: for every triple of non-negative integers, `as_string` consists of
exactly the terms with a non-zero count, in the fixed order add then edit then
remove, rendered ` +<add>`, ` ~<edit>`, ` -<remove>`; it is the empty string
when all three counts are zero. -/
theorem as_string_exact_terms :
    (∀ add edit remove : Nat,
      FileState.as_string add edit remove = delta_terms add edit remove)
    ∧ FileState.as_string 0 0 0 = "" := by
  refine ⟨fun add edit remove => ?_, rfl⟩
  simp only [FileState.as_string, delta_terms]
  by_cases ha : add > 0 <;> by_cases he : edit > 0 <;> by_cases hr : remove > 0 <;>
    simp [ha, he, hr, str_empty_append, str_append_assoc, String.append_empty]

/-- The claim C3 formula: name, then `(<sha>)` exactly when detached, then
` ↓<behind>` exactly when behind is positive, then ` ↑<ahead>` exactly when
ahead is positive, in that order. -/
def branch_display (bs : BranchState) : String :=
  bs.name
    ++ (if bs.is_detached then "(" ++ bs.sha ++ ")" else "")
    ++ (if bs.behind > 0 then " ↓" ++ Nat.repr bs.behind else "")
    ++ (if bs.ahead > 0 then " ↑" ++ Nat.repr bs.ahead else "")

/-- C3: for every BranchState the display string is the name, followed by the
parenthesised sha exactly when detached, followed by the behind arrow exactly
when behind is positive, followed by the ahead arrow exactly when ahead is
positive, in that order. -/
theorem branch_as_string_layout :
    ∀ bs : BranchState, bs.as_string = branch_display bs := by
  intro bs
  simp only [BranchState.as_string, branch_display]
  by_cases hd : bs.is_detached <;> by_cases hb : bs.behind > 0 <;> by_cases ha : bs.ahead > 0 <;>
    (simp [hd, hb, ha]; try (apply String.ext; simp [String.data_append]))

/-- C1: for every successful run inside a repository, the printed output is
wrapped in `[` and `]` and laid out as branch display, index deltas, the
literal separator ` |` exactly when both delta strings are non-empty, then
worktree deltas. -/
theorem repo_info_layout :
    ∀ (repo : Repo) (out : String),
      get_repo_info repo = (out, none) →
      ∃ bs fs, get_branch_info repo = Except.ok bs ∧ get_file_state repo = Except.ok fs ∧
        out = "[" ++ bs.as_string ++ fs.index_as_string
          ++ (if fs.index_as_string ≠ "" ∧ fs.wt_as_string ≠ "" then " |" else "")
          ++ fs.wt_as_string ++ "]" := by
  intro repo out h
  unfold get_repo_info at h
  cases hbr : get_branch_info repo with
  | error e => rw [hbr] at h; simp at h
  | ok bs =>
    rw [hbr] at h
    cases hfs : get_file_state repo with
    | error e => rw [hfs] at h; simp at h
    | ok fs =>
      rw [hfs] at h
      simp only [Prod.mk.injEq] at h
      refine ⟨bs, fs, rfl, rfl, ?_⟩
      rw [← h.1]
      simp only [not_isEmpty_eq]
      by_cases hI : fs.index_as_string = "" <;> by_cases hW : fs.wt_as_string = "" <;>
        simp [hI, hW, String.append_empty]

/-- Concrete repository used as the witness input for C1: one staged new file
and one worktree-modified file, on branch `main` with no upstream. -/
def sample_status : Status :=
  { is_wt_new := false, is_wt_modified := true, is_wt_deleted := false, is_wt_renamed := false,
    is_index_new := true, is_index_modified := false, is_index_deleted := false,
    is_index_renamed := false }

/-- HEAD reference of the sample repository. -/
def sample_ref : GitRef :=
  { name := some "refs/heads/main", shorthand := some "main",
    target := some "aaaa", peel_to_commit := Except.ok "aaaa" }

/-- Sample repository: non-empty, on branch `main`, no upstream configured,
statuses as in `sample_status`. -/
def sample_repo : Repo :=
  { is_empty := Except.ok false,
    head := Except.ok sample_ref,
    head_detached := Except.ok false,
    upstream_config := fun _ => none,
    find_reference := fun _ => Except.error (GitError.from_str "reference not found"),
    graph_ahead_behind := fun _ _ => Except.error (GitError.from_str "revwalk error"),
    config := Except.error (GitError.from_str "config error"),
    statuses := Except.ok [sample_status] }

/-- Witness for C1 at the sample repository, which prints `[main +1 | ~1]`. -/
theorem repo_info_layout_witness :
    ∃ bs fs, get_branch_info sample_repo = Except.ok bs ∧
      get_file_state sample_repo = Except.ok fs ∧
      "[main +1 | ~1]" = "[" ++ bs.as_string ++ fs.index_as_string
        ++ (if fs.index_as_string ≠ "" ∧ fs.wt_as_string ≠ "" then " |" else "")
        ++ fs.wt_as_string ++ "]" :=
  repo_info_layout sample_repo "[main +1 | ~1]" rfl

/-- C4: for a repository with no commits yet, the branch name resolves through
the ordered, short-circuiting fallback chain local `init.defaultBranch`, then
global `init.defaultBranch`, then the literal `master`; the returned
BranchState has zero ahead/behind, is not detached, and carries the zero sha. -/
theorem empty_repo_default_branch :
    ∀ (repo : Repo) (live : LiveConfig) (config : GitConfig),
      repo.is_empty = Except.ok true →
      repo.config = Except.ok live →
      live.snapshot = Except.ok config →
      ((∀ name, config.get_str "init.defaultBranch" = some name →
          get_branch_info repo = Except.ok
            { name := name, ahead := 0, behind := 0, is_detached := false, sha := Oid.zero })
        ∧ (config.get_str "init.defaultBranch" = none →
            ∀ global, config.open_global = Except.ok global →
              ((∀ name, global.get_str "init.defaultBranch" = some name →
                  get_branch_info repo = Except.ok
                    { name := name, ahead := 0, behind := 0, is_detached := false,
                      sha := Oid.zero })
                ∧ (global.get_str "init.defaultBranch" = none →
                    get_branch_info repo = Except.ok
                      { name := "master", ahead := 0, behind := 0, is_detached := false,
                        sha := Oid.zero })))) := by
  intro repo live config hempty hconf hsnap
  constructor
  · intro name hname
    simp [get_branch_info, get_empty_repo_branch_info, hempty, hconf, hsnap, hname]
  · intro hnone global hglobal
    constructor
    · intro name hname
      simp [get_branch_info, get_empty_repo_branch_info, hempty, hconf, hsnap, hnone,
        hglobal, hname]
    · intro hgnone
      simp [get_branch_info, get_empty_repo_branch_info, hempty, hconf, hsnap, hnone,
        hglobal, hgnone]

/-- Snapshot configuration of the sample empty repository: sets
`init.defaultBranch` to `trunk` locally. -/
def sample_empty_config : GitConfig :=
  { get_str := fun key => if key = "init.defaultBranch" then some "trunk" else none,
    open_global := Except.error (GitError.from_str "global config not found") }

/-- Sample freshly-initialized repository with no commits. -/
def sample_empty_repo : Repo :=
  { is_empty := Except.ok true,
    head := Except.error (GitError.from_str "reference not found"),
    head_detached := Except.error (GitError.from_str "reference not found"),
    upstream_config := fun _ => none,
    find_reference := fun _ => Except.error (GitError.from_str "reference not found"),
    graph_ahead_behind := fun _ _ => Except.error (GitError.from_str "revwalk error"),
    config := Except.ok { snapshot := Except.ok sample_empty_config },
    statuses := Except.ok [] }

/-- Witness for C4: the sample empty repository resolves its branch name from
the local configuration value `trunk`. -/
theorem empty_repo_default_branch_witness :
    get_branch_info sample_empty_repo = Except.ok
      { name := "trunk", ahead := 0, behind := 0, is_detached := false, sha := Oid.zero } :=
  (empty_repo_default_branch sample_empty_repo
    { snapshot := Except.ok sample_empty_config } sample_empty_config
    rfl rfl rfl).1 "trunk" rfl

/-- Every successful empty-repository BranchState has zero ahead/behind, is
not detached, and carries the zero sha, whatever the configuration holds. -/
theorem get_empty_repo_branch_info_fields :
    ∀ (repo : Repo) (bs : BranchState),
      get_empty_repo_branch_info repo = Except.ok bs →
      bs.ahead = 0 ∧ bs.behind = 0 ∧ bs.is_detached = false ∧ bs.sha = Oid.zero := by
  intro repo bs h
  unfold get_empty_repo_branch_info at h
  cases hc : repo.config with
  | error e => rw [hc] at h; simp [add_context_to_error] at h
  | ok live =>
    rw [hc] at h
    simp only at h
    cases hs : live.snapshot with
    | error e => rw [hs] at h; simp [add_context_to_error] at h
    | ok config =>
      rw [hs] at h
      simp only at h
      cases hg : config.get_str "init.defaultBranch" with
      | some name => rw [hg] at h; simp only at h; cases h; simp
      | none =>
        rw [hg] at h
        simp only at h
        cases ho : config.open_global with
        | error e => rw [ho] at h; simp [add_context_to_error] at h
        | ok global =>
          rw [ho] at h
          simp only at h
          cases hgg : global.get_str "init.defaultBranch" with
          | some name => rw [hgg] at h; simp only at h; cases h; simp
          | none => rw [hgg] at h; simp only at h; cases h; simp

/-- C5: whenever `get_branch_info` succeeds and either the repository has no
commits yet or the upstream lookup for the HEAD reference name fails (no
configured upstream), the produced BranchState has ahead = 0 and behind = 0. -/
theorem no_upstream_zero_ahead_behind :
    ∀ (repo : Repo) (bs : BranchState),
      get_branch_info repo = Except.ok bs →
      (repo.is_empty = Except.ok true ∨
        (∃ head name e, repo.head = Except.ok head ∧ head.name = some name ∧
          branch_upstream_name repo name = Except.error e)) →
      bs.ahead = 0 ∧ bs.behind = 0 := by
  intro repo bs h hside
  unfold get_branch_info at h
  cases hempty : repo.is_empty with
  | error e => rw [hempty] at h; cases h
  | ok b =>
    rw [hempty] at h
    cases b with
    | true =>
      simp only at h
      exact ⟨(get_empty_repo_branch_info_fields repo bs h).1,
        (get_empty_repo_branch_info_fields repo bs h).2.1⟩
    | false =>
      rcases hside with hside | ⟨head₀, name₀, e₀, hh₀, hn₀, hu₀⟩
      · rw [hempty] at hside; cases hside
      · simp only at h
        rw [hh₀] at h
        simp only at h
        rw [hn₀] at h
        cases hsh : head₀.shorthand with
        | none => rw [hsh] at h; cases h
        | some short =>
          rw [hsh] at h
          simp only at h
          rw [hu₀] at h
          cases hdet : repo.head_detached with
          | error e => rw [hdet] at h; cases h
          | ok det =>
            rw [hdet] at h
            cases hpeel : head₀.peel_to_commit with
            | error e => rw [hpeel] at h; cases h
            | ok sha =>
              rw [hpeel] at h
              cases h
              exact ⟨rfl, rfl⟩

/-- Witness BranchState produced by `get_branch_info` on the sample
repository, which has no upstream configured. -/
def sample_branch_state : BranchState :=
  { name := "main", ahead := 0, behind := 0, is_detached := false, sha := "aaaa" }

/-- Witness for C5 at the sample repository (branch `main`, no upstream). -/
theorem no_upstream_zero_ahead_behind_witness :
    sample_branch_state.ahead = 0 ∧ sample_branch_state.behind = 0 :=
  no_upstream_zero_ahead_behind sample_repo sample_branch_state rfl
    (Or.inr ⟨sample_ref, "refs/heads/main",
      GitError.from_str "config value 'branch.*.merge' was not found", rfl, rfl, rfl⟩)

/-- Status of a file that is renamed in the index and nothing else. -/
def index_renamed_only : Status :=
  { is_wt_new := false, is_wt_modified := false, is_wt_deleted := false, is_wt_renamed := false,
    is_index_new := false, is_index_modified := false, is_index_deleted := false,
    is_index_renamed := true }

/-- Status of a file that is renamed in the worktree and nothing else. -/
def wt_renamed_only : Status :=
  { is_wt_new := false, is_wt_modified := false, is_wt_deleted := false, is_wt_renamed := true,
    is_index_new := false, is_index_modified := false, is_index_deleted := false,
    is_index_renamed := false }

/-- C6: each per-file status flag is checked independently and each set flag
adds its own contribution to the counters; in particular a single renamed
file bumps both the add and the remove counter of its side by exactly 1, and
`get_file_state` folds this per-file accounting over the whole status list. -/
theorem file_flags_independent :
    (∀ (fs : FileState) (s : Status),
      count_status fs s =
        { wt_add := fs.wt_add + (if s.is_wt_new then 1 else 0)
            + (if s.is_wt_renamed then 1 else 0),
          wt_edit := fs.wt_edit + (if s.is_wt_modified then 1 else 0),
          wt_remove := fs.wt_remove + (if s.is_wt_deleted then 1 else 0)
            + (if s.is_wt_renamed then 1 else 0),
          index_add := fs.index_add + (if s.is_index_new then 1 else 0)
            + (if s.is_index_renamed then 1 else 0),
          index_edit := fs.index_edit + (if s.is_index_modified then 1 else 0),
          index_remove := fs.index_remove + (if s.is_index_deleted then 1 else 0)
            + (if s.is_index_renamed then 1 else 0) })
    ∧ (∀ fs : FileState, count_status fs index_renamed_only =
        { fs with index_add := fs.index_add + 1, index_remove := fs.index_remove + 1 })
    ∧ (∀ fs : FileState, count_status fs wt_renamed_only =
        { fs with wt_add := fs.wt_add + 1, wt_remove := fs.wt_remove + 1 })
    ∧ (∀ (repo : Repo) (l : List Status), repo.statuses = Except.ok l →
        get_file_state repo = Except.ok (List.foldl count_status
          { wt_add := 0, wt_edit := 0, wt_remove := 0,
            index_add := 0, index_edit := 0, index_remove := 0 } l)) := by
  refine ⟨?_, ?_, ?_, ?_⟩
  · intro fs s
    obtain ⟨a, b, c, d, e, f, g, i⟩ := s
    cases a <;> cases b <;> cases c <;> cases d <;> cases e <;> cases f <;> cases g <;>
      cases i <;> simp [count_status]
  · intro fs; simp [count_status, index_renamed_only]
  · intro fs; simp [count_status, wt_renamed_only]
  · intro repo l h
    unfold get_file_state
    rw [h]

/-- Witness for C6 at the sample repository, whose status list holds one
staged-new, worktree-modified file. -/
theorem file_flags_independent_witness :
    get_file_state sample_repo = Except.ok (List.foldl count_status
      { wt_add := 0, wt_edit := 0, wt_remove := 0,
        index_add := 0, index_edit := 0, index_remove := 0 } [sample_status]) :=
  file_flags_independent.2.2.2 sample_repo [sample_status] rfl

/-- C7: when the current directory is not inside any repository (discovery
fails with the not-found code), the program exits with code 0 and prints
nothing on standard output. -/
theorem outside_repo_silent :
    ∀ (env : Env) (dir : String) (e : GitError),
      env.current_dir = Except.ok dir →
      env.discover dir = Except.error e →
      e.code = ErrorCode.notFound →
      std_output (main env) = "" ∧ exit_code (main env) = 0 := by
  intro env dir e hdir hdisc _
  unfold main
  rw [hdir]
  simp only
  rw [hdisc]
  exact ⟨rfl, rfl⟩

/-- Environment whose working directory is not inside any repository. -/
def outside_env : Env :=
  { current_dir := Except.ok "/home/user/plain-dir",
    discover := fun _ => Except.error
      { code := ErrorCode.notFound, message := "could not find repository" } }

/-- Witness for C7 at the environment outside any repository. -/
theorem outside_repo_silent_witness :
    std_output (main outside_env) = "" ∧ exit_code (main outside_env) = 0 :=
  outside_repo_silent outside_env "/home/user/plain-dir"
    { code := ErrorCode.notFound, message := "could not find repository" } rfl rfl rfl

/-- Environment in which repository discovery fails with a permission error,
not with the not-found code. -/
def perm_denied_env : Env :=
  { current_dir := Except.ok "/home/user/locked-dir",
    discover := fun _ => Except.error
      { code := ErrorCode.generic, message := "permission denied" } }

/-- Counterexample to C8: a repository-discovery failure other than absence
of a repository (here a permission error) does NOT abort the run — `main`
exits with code 0 and prints nothing, because the code matches every
discovery error with the silent arm. -/
theorem discovery_failure_not_fatal :
    exit_code (main perm_denied_env) = 0 ∧ std_output (main perm_denied_env) = "" ∧
    (main perm_denied_env).2 = none :=
  ⟨rfl, rfl, rfl⟩

/-- C8 (amended): a failure to read the current directory, or any failure
while producing repository info after discovery succeeded, aborts the run
with a contextual diagnostic and a non-zero exit status; every discovery
failure, whatever its kind, is treated as the silent not-a-repository case. -/
theorem fatal_errors_abort :
    ∀ env : Env,
      (∀ msg, env.current_dir = Except.error msg →
        (main env).2 = some (GitError.from_str ("Unable to get current dir. Error: " ++ msg)) ∧
        exit_code (main env) ≠ 0)
      ∧ (∀ dir e, env.current_dir = Except.ok dir → env.discover dir = Except.error e →
          main env = ("", none) ∧ exit_code (main env) = 0)
      ∧ (∀ dir repo out e, env.current_dir = Except.ok dir →
          env.discover dir = Except.ok repo →
          get_repo_info repo = (out, some e) →
          (main env).2 = some e ∧ exit_code (main env) ≠ 0) := by
  intro env
  refine ⟨?_, ?_, ?_⟩
  · intro msg hdir
    unfold main
    rw [hdir]
    simp [exit_code]
  · intro dir e hdir hdisc
    unfold main
    rw [hdir]
    simp only
    rw [hdisc]
    exact ⟨rfl, rfl⟩
  · intro dir repo out e hdir hdisc hinfo
    unfold main
    rw [hdir]
    simp only
    rw [hdisc]
    simp only
    rw [hinfo]
    simp [exit_code]

/-- Environment in which reading the current working directory itself fails. -/
def cwd_error_env : Env :=
  { current_dir := Except.error "Permission denied (os error 13)",
    discover := fun _ => Except.error
      { code := ErrorCode.notFound, message := "could not find repository" } }

/-- Witness for the amended C8 at the environment whose current-directory
read fails. -/
theorem fatal_errors_abort_witness :
    (main cwd_error_env).2 = some (GitError.from_str
      ("Unable to get current dir. Error: " ++ "Permission denied (os error 13)")) ∧
    exit_code (main cwd_error_env) ≠ 0 :=
  (fatal_errors_abort cwd_error_env).1 "Permission denied (os error 13)" rfl

/-- Repository whose HEAD cannot be resolved. -/
def head_error_repo : Repo :=
  { is_empty := Except.ok false,
    head := Except.error (GitError.from_str "corrupt HEAD"),
    head_detached := Except.error (GitError.from_str "corrupt HEAD"),
    upstream_config := fun _ => none,
    find_reference := fun _ => Except.error (GitError.from_str "reference not found"),
    graph_ahead_behind := fun _ _ => Except.error (GitError.from_str "revwalk error"),
    config := Except.error (GitError.from_str "config error"),
    statuses := Except.ok [] }

/-- C9: every fatal error that carries added context is formatted as the
context string, the literal `. Error: `, then the underlying message; in
particular a HEAD-resolution failure in a non-empty repository is fatal and
carries exactly that message shape. -/
theorem error_context_format :
    (∀ (e : GitError) (context : String),
      (add_context_to_error e context : Except GitError BranchState) =
        Except.error (GitError.from_str (context ++ ". Error: " ++ e.message)))
    ∧ (∀ (repo : Repo) (e : GitError),
        repo.is_empty = Except.ok false →
        repo.head = Except.error e →
        get_branch_info repo =
          Except.error (GitError.from_str ("Unable to get HEAD. Error: " ++ e.message))) := by
  constructor
  · intro e context
    rfl
  · intro repo e hempty hhead
    unfold get_branch_info
    rw [hempty]
    simp only
    rw [hhead]
    rfl

/-- Witness for C9 at the repository with a corrupt HEAD. -/
theorem error_context_format_witness :
    get_branch_info head_error_repo =
      Except.error (GitError.from_str "Unable to get HEAD. Error: corrupt HEAD") :=
  error_context_format.2 head_error_repo (GitError.from_str "corrupt HEAD") rfl rfl

/-- C10: a successfully produced detached BranchState always has ahead = 0
and behind = 0, because upstream resolution is attempted on the HEAD
reference name, which for a detached HEAD is the non-branch name `HEAD`;
consequently the detached display is just the name and parenthesised sha,
with no arrows.  The hypothesis `hinv` is the git invariant that a detached
HEAD's reference is named `HEAD`. -/
theorem detached_head_no_arrows :
    ∀ (repo : Repo) (bs : BranchState),
      get_branch_info repo = Except.ok bs →
      bs.is_detached = true →
      (∀ head, repo.head = Except.ok head → repo.head_detached = Except.ok true →
        head.name = some "HEAD") →
      bs.ahead = 0 ∧ bs.behind = 0 ∧ bs.as_string = bs.name ++ "(" ++ bs.sha ++ ")" := by
  intro repo bs h hdet hinv
  unfold get_branch_info at h
  cases hempty : repo.is_empty with
  | error e => rw [hempty] at h; cases h
  | ok b =>
    rw [hempty] at h
    cases b with
    | true =>
      simp only at h
      have hfalse := (get_empty_repo_branch_info_fields repo bs h).2.2.1
      rw [hdet] at hfalse
      cases hfalse
    | false =>
      simp only at h
      cases hh : repo.head with
      | error e => rw [hh] at h; simp [add_context_to_error] at h
      | ok head =>
        rw [hh] at h
        simp only at h
        cases hn : head.name with
        | none => rw [hn] at h; cases h
        | some head_fullname =>
          rw [hn] at h
          simp only at h
          cases hsh : head.shorthand with
          | none => rw [hsh] at h; cases h
          | some head_shortname =>
            rw [hsh] at h
            simp only at h
            cases hu : branch_upstream_name repo head_fullname with
            | error e =>
              rw [hu] at h
              cases hd : repo.head_detached with
              | error e2 => rw [hd] at h; cases h
              | ok det =>
                rw [hd] at h
                cases hp : head.peel_to_commit with
                | error e2 => rw [hp] at h; cases h
                | ok sha =>
                  rw [hp] at h
                  cases h
                  simp only at hdet
                  subst hdet
                  refine ⟨rfl, rfl, ?_⟩
                  simp [BranchState.as_string, str_append_assoc]
            | ok buf =>
              -- impossible: the upstream lookup cannot succeed for `HEAD`
              rw [hu] at h
              exfalso
              have hdetr : repo.head_detached = Except.ok true := by
                cases buf with
                | none => cases h
                | some remote_name =>
                  simp only at h
                  cases hf : repo.find_reference remote_name with
                  | error e2 => rw [hf] at h; cases h
                  | ok remote_reference =>
                    rw [hf] at h
                    simp only at h
                    cases ht : remote_reference.target with
                    | none => rw [ht] at h; cases h
                    | some upstream_oid =>
                      rw [ht] at h
                      simp only at h
                      cases hlt : head.target with
                      | none => rw [hlt] at h; cases h
                      | some local_oid =>
                        rw [hlt] at h
                        simp only at h
                        cases hab : repo.graph_ahead_behind local_oid upstream_oid with
                        | error e2 => rw [hab] at h; cases h
                        | ok ab =>
                          rw [hab] at h
                          simp only at h
                          cases hd : repo.head_detached with
                          | error e2 => rw [hd] at h; cases h
                          | ok det =>
                            rw [hd] at h
                            cases hp : head.peel_to_commit with
                            | error e2 => rw [hp] at h; cases h
                            | ok sha =>
                              rw [hp] at h
                              cases h
                              simp only at hdet
                              rw [hdet]
              have hname := hinv head hh hdetr
              rw [hn] at hname
              cases hname
              rw [show branch_upstream_name repo "HEAD" =
                Except.error (GitError.from_str "not a local branch reference") from rfl] at hu
              cases hu

/-- Reference of the sample detached repository: HEAD points directly at a
commit, so its name is `HEAD`. -/
def sample_detached_ref : GitRef :=
  { name := some "HEAD", shorthand := some "HEAD",
    target := some "bbbb", peel_to_commit := Except.ok "bbbb" }

/-- Sample repository in detached-HEAD state. -/
def sample_detached_repo : Repo :=
  { is_empty := Except.ok false,
    head := Except.ok sample_detached_ref,
    head_detached := Except.ok true,
    upstream_config := fun _ => none,
    find_reference := fun _ => Except.error (GitError.from_str "reference not found"),
    graph_ahead_behind := fun _ _ => Except.error (GitError.from_str "revwalk error"),
    config := Except.error (GitError.from_str "config error"),
    statuses := Except.ok [] }

/-- BranchState produced for the sample detached repository. -/
def sample_detached_state : BranchState :=
  { name := "HEAD", ahead := 0, behind := 0, is_detached := true, sha := "bbbb" }

/-- Witness for C10 at the sample detached repository. -/
theorem detached_head_no_arrows_witness :
    sample_detached_state.ahead = 0 ∧ sample_detached_state.behind = 0 ∧
    sample_detached_state.as_string =
      sample_detached_state.name ++ "(" ++ sample_detached_state.sha ++ ")" := by
  refine detached_head_no_arrows sample_detached_repo sample_detached_state rfl rfl ?_
  intro head hh _
  simp only [sample_detached_repo, Except.ok.injEq] at hh
  rw [← hh]
  rfl

end RustyGitPrompt
